import Mathlib

/-!
Shallow embedding of the storage core of `rust-internal-file-server`
(src/error.rs, src/config.rs, src/storage/file_manager.rs).

The SQLite table `files` (created in `FileManager::init`) is modelled as a
list of rows in insertion order; the only uniqueness the schema declares is
`id TEXT PRIMARY KEY` (there is no UNIQUE constraint on `stored_name`).
The filesystem is modelled as the list of paths that currently exist, plus
an oracle saying which `remove_file` calls fail with an I/O error.
`upload_time` is stored by the code as an RFC3339 text column and ordered
lexicographically, which for the fixed-width UTC format produced by
`to_rfc3339` coincides with chronological order; it is modelled as an
integer timestamp.
-/

namespace FileServer

/-- The error taxonomy of `src/error.rs` (`ServerError`). Payloads are kept
as strings; the exact message text is irrelevant to the claims. Note that
the enum has no `Conflict` variant. -/
inductive ServerError where
  | Config (msg : String)
  | Database (msg : String)
  | Io (msg : String)
  | Serde (msg : String)
  | Http (msg : String)
  | Axum (msg : String)
  | FileOperation (message : String)
  | VideoProcessing (message : String)
  | Validation (message : String)
  | NotFound (resource : String)
  | PermissionDenied (action : String)
  | Internal (msg : String)
deriving Repr, DecidableEq

/-- `ServerError::status_code` from src/error.rs lines 84-98. -/
def ServerError.status_code : ServerError → Nat
  | .NotFound _ => 404
  | .Validation _ => 400
  | .PermissionDenied _ => 403
  | .Config _ => 500
  | .Axum _ => 500
  | .Database _ => 500
  | .Io _ => 500
  | .Serde _ => 500
  | .Http _ => 500
  | .FileOperation _ => 500
  | .VideoProcessing _ => 500
  | .Internal _ => 500

/-- `FileRecord` from src/storage/file_manager.rs lines 9-22. `file_size`
is an `i64` in the code, modelled as `Int`; `upload_time` is a UTC
timestamp, modelled as `Int` (see the header comment); `video_duration`
is an `i32`, modelled as `Int`. -/
structure FileRecord where
  id : String
  original_name : String
  stored_name : String
  file_path : String
  file_size : Int
  mime_type : String
  upload_time : Int
  is_video : Bool
  thumbnail_path : Option String
  video_duration : Option Int
  video_resolution : Option String
deriving Repr, DecidableEq

/-- `FileStats` from src/storage/file_manager.rs lines 252-257; the three
fields are `u64` in the code, modelled as `Nat`. -/
structure FileStats where
  total_files : Nat
  total_size : Nat
  video_count : Nat
deriving Repr, DecidableEq

/-- The two resources the storage layer touches: the `files` table (rows
in insertion order) and the filesystem (paths that exist). -/
structure StoreState where
  db : List FileRecord
  fs : List String
deriving Repr, DecidableEq

/-- `FileManager::save_file_record` (src/storage/file_manager.rs lines
82-107): a plain `INSERT INTO files`. The schema declares `id` as PRIMARY
KEY, so SQLite rejects a duplicate `id` with a UNIQUE-constraint error,
which the code wraps as `ServerError::Database`; no other column is
constrained, and the function never looks at the filesystem. -/
def save_file_record (db : List FileRecord) (record : FileRecord) :
    Except ServerError (List FileRecord) :=
  if db.any (fun r => r.id == record.id) then
    .error (.Database "UNIQUE constraint failed: files.id")
  else
    .ok (db ++ [record])

/-- `FileManager::get_file_by_id` (src/storage/file_manager.rs lines
109-140): `SELECT * FROM files WHERE id = ?` with `fetch_optional`; an
absent id yields `Ok(None)`. The RFC3339 re-parse the code performs on a
found row always succeeds on text written by `save_file_record`, and is
not reached at all when the row is absent. -/
def get_file_by_id (db : List FileRecord) (file_id : String) :
    Except ServerError (Option FileRecord) :=
  .ok (db.find? (fun r => r.id == file_id))

/-- The sort key of `SELECT * FROM files ORDER BY upload_time DESC`:
`a` may come before `b` iff `b.upload_time ≤ a.upload_time`. -/
def uploadTimeDesc (a b : FileRecord) : Prop :=
  b.upload_time ≤ a.upload_time

instance : DecidableRel uploadTimeDesc :=
  fun a b => inferInstanceAs (Decidable (b.upload_time ≤ a.upload_time))

instance : IsTotal FileRecord uploadTimeDesc :=
  ⟨fun a b => le_total b.upload_time a.upload_time⟩

instance : IsTrans FileRecord uploadTimeDesc :=
  ⟨fun _ _ _ hab hbc => le_trans hbc hab⟩

/-- SQLite `OFFSET o` semantics: a non-positive offset skips nothing. -/
def sqliteOffset (o : Int) (rows : List FileRecord) : List FileRecord :=
  if o ≤ 0 then rows else rows.drop o.toNat

/-- SQLite `LIMIT l` semantics: a negative limit means no upper bound on
the number of rows. -/
def sqliteLimit (l : Int) (rows : List FileRecord) : List FileRecord :=
  if l < 0 then rows else rows.take l.toNat

/-- SQLite `LIMIT l OFFSET o`: offset first, then limit. -/
def sqlitePage (l o : Int) (rows : List FileRecord) : List FileRecord :=
  sqliteLimit l (sqliteOffset o rows)

/-- `FileManager::list_files` (src/storage/file_manager.rs lines 142-178):
`limit` and `offset` are `Option<i32>` defaulted to 50 and 0, then passed
straight into `SELECT * FROM files ORDER BY upload_time DESC LIMIT ?
OFFSET ?` with no validation. -/
def list_files (db : List FileRecord) (limit offset : Option Int) :
    Except ServerError (List FileRecord) :=
  let l := limit.getD 50
  let o := offset.getD 0
  .ok (sqlitePage l o (List.insertionSort uploadTimeDesc db))

/-- Rust `as` cast from `i64` to `u64`: reinterpretation modulo `2 ^ 64`. -/
def i64ToU64 (x : Int) : Nat :=
  (x % (2 : Int) ^ 64).toNat

/-- `FileManager::get_file_stats` (src/storage/file_manager.rs lines
208-227): `COUNT(*)`, `SUM(file_size)` (NULL on an empty table, which
`unwrap_or(0)` turns into 0 — absorbed here since the empty sum is 0) and
`COUNT(CASE WHEN is_video = 1 THEN 1 END)`. SQLite raises an
integer-overflow error when the integer SUM leaves the `i64` range; the
two `i64` counts cannot exceed the number of rows SQLite can hold, so
their `as u64` casts are the identity and are not modelled. -/
def get_file_stats (db : List FileRecord) : Except ServerError FileStats :=
  let s := (db.map (fun r => r.file_size)).sum
  if s < -(2 ^ 63) ∨ 2 ^ 63 ≤ s then
    .error (.Database "integer overflow")
  else
    .ok { total_files := db.length
        , total_size := i64ToU64 s
        , video_count := db.countP (fun r => r.is_video) }

/-- Removing a path from the filesystem model. Paths of a real filesystem
are unique, so removal is a filter. -/
def fsRemove (fs : List String) (p : String) : List String :=
  fs.filter (fun q => !(q == p))

/-- The thumbnail step of `delete_file`: when the thumbnail path exists
the code attempts `remove_file` and discards its result, so the path is
removed exactly when it exists and the removal succeeds, and any
failure is swallowed. -/
def deleteThumb (removeFails : String → Bool) (fs : List String) :
    Option String → List String
  | none => fs
  | some thumbnail =>
    if fs.contains thumbnail && !(removeFails thumbnail) then
      fsRemove fs thumbnail
    else fs

/-- `FileManager::delete_file` (src/storage/file_manager.rs lines
180-206). It looks the record up; on a missing row it returns
`Ok(false)`. On a found record it removes the file at `file_path` only
if that path exists, propagating a `remove_file` failure as
`ServerError::Io`; it then best-effort-removes the thumbnail
(`deleteThumb`); finally it runs `DELETE FROM files WHERE id = ?` and
returns `Ok(true)`. `removeFails` is the oracle saying which
`remove_file` calls fail; `fsRemove st.fs record.file_path` is the
identity when the file does not exist, matching the skipped branch. -/
def delete_file (removeFails : String → Bool) (st : StoreState)
    (file_id : String) : Except ServerError (StoreState × Bool) :=
  match get_file_by_id st.db file_id with
  | .error e => .error e
  | .ok none => .ok (st, false)
  | .ok (some record) =>
    if st.fs.contains record.file_path && removeFails record.file_path then
      .error (.Io "remove_file failed")
    else
      .ok ({ db := st.db.filter (fun r => !(r.id == file_id))
           , fs := deleteThumb removeFails
               (fsRemove st.fs record.file_path) record.thumbnail_path },
           true)

/-- The suffix of a character list after its last dot, or `none` when no
dot occurs. -/
def afterLastDot? : List Char → Option (List Char)
  | [] => none
  | c :: rest =>
    match afterLastDot? rest with
    | some e => some e
    | none => if c = '.' then some rest else none

/-- Splitting a character list at a separator, mirroring the component
split of a Unix path ("a/b" gives a and b, a leading, trailing or
doubled separator gives empty pieces). -/
def splitOnChar (sep : Char) : List Char → List (List Char)
  | [] => [[]]
  | c :: rest =>
    match splitOnChar sep rest with
    | [] => if c = sep then [[], []] else [[c]]
    | h :: t => if c = sep then [] :: h :: t else (c :: h) :: t

/-- Rust `Path::file_name` for the paths fed to `generate_stored_name`:
the last path component once empty and `.` components are dropped;
`none` for an empty path or one ending in `..`. -/
def fileNameChars (s : String) : Option (List Char) :=
  let comps := (splitOnChar '/' s.data).filter
    (fun c => !(c == [] || c == ['.']))
  match comps.getLast? with
  | none => none
  | some c => if c == ['.', '.'] then none else some c

/-- Rust `Path::extension`: the part of the file name after its last dot,
where a dot in first position is ignored (so ".gitignore" has no
extension but "..hidden" has extension "hidden", exactly as in the
standard library, which searches for the last dot in `name[1..]`). -/
def extOf (s : String) : Option String :=
  match fileNameChars s with
  | none => none
  | some name =>
    match name with
    | [] => none
    | _ :: rest => (afterLastDot? rest).map (fun e => String.mk e)

/-- `FileManager::generate_stored_name` (src/storage/file_manager.rs
lines 229-241): `Path::new(original_name).extension()` defaulted to ""
(`unwrap_or("")` also flattens the `Some("")` of names ending in a dot),
then either the bare UUID or `format!("\x7b\x7d.\x7b\x7d", uuid, ext)`.
The freshly drawn v4 UUID is passed in as `uuid`; distinct draws are
distinct strings. -/
def generate_stored_name (uuid : String) (original_name : String) :
    String :=
  let e := (extOf original_name).getD ""
  if e.isEmpty then uuid else uuid ++ "." ++ e

/-- `ServerConfig` from src/config.rs lines 13-23 (`port` is `u16`,
`request_timeout` is `u64`). -/
structure ServerConfig where
  address : String
  port : Nat
  max_body_size : Nat
  request_timeout : Nat
deriving Repr, DecidableEq

/-- `DatabaseConfig` from src/config.rs lines 25-31. -/
structure DatabaseConfig where
  url : String
  max_connections : Nat
deriving Repr, DecidableEq

/-- `StorageConfig` from src/config.rs lines 33-43 (`max_file_size` is
`u64`, `chunk_size` is `usize`). -/
structure StorageConfig where
  path : String
  upload_dir : String
  max_file_size : Nat
  chunk_size : Nat
deriving Repr, DecidableEq

/-- `VideoConfig` from src/config.rs lines 45-51. -/
structure VideoConfig where
  thumbnail_size : String
  supported_formats : List String
deriving Repr, DecidableEq

/-- `Config` from src/config.rs lines 5-11. -/
structure Config where
  server : ServerConfig
  database : DatabaseConfig
  storage : StorageConfig
  video : VideoConfig
deriving Repr, DecidableEq

/-- `Config::validate` (src/config.rs lines 74-92): rejects a zero server
port with a `Validation` error, then ensures the storage path exists or
can be created (`create_dir_all`, whose failure becomes a `Validation`
error), then rejects a zero `max_file_size`. Nothing else is checked:
in particular `chunk_size` and `request_timeout` are never read here.
`dirExists p` models `p.exists()` and `createDirOk p` models whether
`create_dir_all(p)` succeeds. -/
def Config.validate (dirExists createDirOk : String → Bool) (c : Config) :
    Except ServerError Unit :=
  if c.server.port = 0 then
    .error (.Validation "port must not be 0")
  else if !(dirExists c.storage.path) && !(createDirOk c.storage.path) then
    .error (.Validation "cannot create storage directory")
  else if c.storage.max_file_size = 0 then
    .error (.Validation "max file size must not be 0")
  else
    .ok ()

/-- The row-to-file half of the spec invariant of §3: every row's
`file_path` exists on disk. -/
def rowFileInv (st : StoreState) : Prop :=
  ∀ r ∈ st.db, r.file_path ∈ st.fs

/-! Concrete records used by witnesses and counterexamples. -/

/-- A plain 100-byte text file record. -/
def recA : FileRecord :=
  { id := "a", original_name := "a.txt", stored_name := "sa.txt"
  , file_path := "/data/sa.txt", file_size := 100
  , mime_type := "text/plain", upload_time := 10, is_video := false
  , thumbnail_path := none, video_duration := none
  , video_resolution := none }

/-- A plain 200-byte text file record. -/
def recB : FileRecord :=
  { id := "b", original_name := "b.txt", stored_name := "sb.txt"
  , file_path := "/data/sb.txt", file_size := 200
  , mime_type := "text/plain", upload_time := 20, is_video := false
  , thumbnail_path := none, video_duration := none
  , video_resolution := none }

/-- A 300-byte video record. -/
def recC : FileRecord :=
  { id := "c", original_name := "c.mp4", stored_name := "sc.mp4"
  , file_path := "/data/sc.mp4", file_size := 300
  , mime_type := "video/mp4", upload_time := 30, is_video := true
  , thumbnail_path := some "/data/sc.jpg", video_duration := some 60
  , video_resolution := some "1280x720" }

/-- First of two records sharing one `stored_name` under distinct ids. -/
def recS1 : FileRecord :=
  { recA with id := "id1", stored_name := "shared.bin", file_path := "/data/shared.bin" }

/-- Second of two records sharing one `stored_name` under distinct ids. -/
def recS2 : FileRecord :=
  { recA with id := "id2", stored_name := "shared.bin", file_path := "/data/shared.bin" }

/-- A record whose `file_path` points at a file that does not exist. -/
def recO : FileRecord :=
  { recA with id := "o1", file_path := "/data/missing.bin" }

/-- A video record with a thumbnail, used to exercise `delete_file`. -/
def recW : FileRecord :=
  { recC with id := "w", file_path := "/data/sw.mp4", thumbnail_path := some "/data/sw.jpg" }

/-- A store holding `recW`, its file and its thumbnail. -/
def stW : StoreState :=
  { db := [recW], fs := ["/data/sw.mp4", "/data/sw.jpg"] }

/-- A record whose file is gone from disk but whose thumbnail remains. -/
def recM : FileRecord :=
  { recC with id := "m", file_path := "/data/gone.mp4", thumbnail_path := some "/data/thumbM.jpg" }

/-- A store holding `recM` with the main file missing from disk. -/
def stM : StoreState :=
  { db := [recM], fs := ["/data/thumbM.jpg"] }

/-- A configuration that is valid per `Config::validate` yet has a zero
chunk size and a zero request timeout (all other knobs are the
defaults of src/config.rs). -/
def cfgZeroChunkTimeout : Config :=
  { server := { address := "0.0.0.0", port := 3000
              , max_body_size := 10737418240, request_timeout := 0 }
  , database := { url := "sqlite:./files.db", max_connections := 10 }
  , storage := { path := "./storage", upload_dir := "./storage"
               , max_file_size := 10737418240, chunk_size := 0 }
  , video := { thumbnail_size := "320x240"
             , supported_formats := ["mp4", "avi", "mkv", "mov", "wmv", "flv", "webm"] } }

lemma i64ToU64_eq_toNat {x : Int} (h0 : 0 ≤ x) (h1 : x < 2 ^ 64) :
    i64ToU64 x = x.toNat := by
  unfold i64ToU64
  rw [Int.emod_eq_of_lt h0 h1]

/-- C9: for an id absent from the table, `get_file_by_id` returns
`Ok(None)` rather than an error; the only error paths of the function
are underlying store failures (and the RFC3339 re-parse of a *found*
row), never mere absence. -/
theorem get_file_by_id_absent_returns_none (db : List FileRecord)
    (file_id : String) (h : ∀ r ∈ db, r.id ≠ file_id) :
    get_file_by_id db file_id = .ok none := by
  unfold get_file_by_id
  have : db.find? (fun r => r.id == file_id) = none := by
    rw [List.find?_eq_none]
    intro r hr
    simpa using h r hr
  rw [this]

/-- Witness for C9: looking up an id not present in a one-row table. -/
theorem get_file_by_id_absent_returns_none_witness :
    get_file_by_id [recA] "zzz" = .ok none := by
  exact get_file_by_id_absent_returns_none [recA] "zzz" (by decide)

/-- C4: `get_file_stats` counts the rows, sums their `file_size` and
counts the video rows; it succeeds on any table whose sizes are
non-negative and whose sum stays in `i64` range, in particular on the
empty table, where the NULL `SUM` is replaced by 0. -/
theorem get_file_stats_spec (db : List FileRecord)
    (hnn : ∀ r ∈ db, 0 ≤ r.file_size)
    (hub : (db.map (fun r => r.file_size)).sum < 2 ^ 63) :
    get_file_stats db =
      .ok { total_files := db.length
          , total_size := ((db.map (fun r : FileRecord => r.file_size)).sum).toNat
          , video_count := db.countP (fun r : FileRecord => r.is_video) }
    ∧ get_file_stats [] = .ok ⟨0, 0, 0⟩ := by
  have h0 : 0 ≤ (db.map (fun r : FileRecord => r.file_size)).sum := by
    apply List.sum_nonneg
    intro x hx
    obtain ⟨r, hr, rfl⟩ := List.mem_map.mp hx
    exact hnn r hr
  have hcond : ¬((db.map (fun r : FileRecord => r.file_size)).sum < -(2 ^ 63)
      ∨ 2 ^ 63 ≤ (db.map (fun r : FileRecord => r.file_size)).sum) := by
    push_neg
    exact ⟨by linarith, hub⟩
  constructor
  · simp only [get_file_stats]
    rw [if_neg hcond,
      i64ToU64_eq_toNat h0 (lt_of_lt_of_le hub (by norm_num))]
  · rfl

/-- Witness for C4: sizes 100, 200, 300 with exactly one video row give
`total_files = 3`, `total_size = 600`, `video_count = 1`. -/
theorem get_file_stats_spec_witness :
    get_file_stats [recA, recB, recC] = .ok ⟨3, 600, 1⟩ := by
  have h := (get_file_stats_spec [recA, recB, recC]
    (by decide) (by decide)).1
  exact h.trans (by rfl)

/-- C2 counterexample: the schema of `FileManager::init` has no UNIQUE
constraint on `stored_name`, so two inserts of distinct ids sharing one
stored name both commit, contradicting the claim that the second must
fail with a Conflict error. -/
theorem save_file_record_duplicate_stored_name_both_commit :
    save_file_record [] recS1 = .ok [recS1]
    ∧ save_file_record [recS1] recS2 = .ok [recS1, recS2]
    ∧ recS1.id ≠ recS2.id
    ∧ recS1.stored_name = recS2.stored_name := by
  exact ⟨rfl, rfl, by decide, rfl⟩

/-- C2 amended: inserting a record fails iff a row with the same id
already exists — surfaced as a `Database` error (the SQLite UNIQUE
violation on the primary key; the error taxonomy has no Conflict
variant) — and otherwise appends the row, a duplicate `stored_name`
notwithstanding. -/
theorem save_file_record_spec (db : List FileRecord)
    (record : FileRecord) :
    ((∃ r ∈ db, r.id = record.id) →
      save_file_record db record =
        .error (.Database "UNIQUE constraint failed: files.id"))
    ∧ ((∀ r ∈ db, r.id ≠ record.id) →
      save_file_record db record = .ok (db ++ [record])) := by
  constructor
  · rintro ⟨r, hr, hid⟩
    unfold save_file_record
    rw [if_pos]
    exact List.any_eq_true.mpr ⟨r, hr, by simp [hid]⟩
  · intro h
    unfold save_file_record
    rw [if_neg]
    intro hany
    obtain ⟨r, hr, hid⟩ := List.any_eq_true.mp hany
    exact h r hr (by simpa using hid)

/-- Witness for C2 (amended): a duplicate id is rejected with a Database
error while a fresh id with a duplicate stored name commits. -/
theorem save_file_record_spec_witness :
    save_file_record [recS1] { recS2 with id := "id1" } =
      .error (.Database "UNIQUE constraint failed: files.id")
    ∧ save_file_record [recS1] recS2 = .ok [recS1, recS2] := by
  refine ⟨(save_file_record_spec [recS1] { recS2 with id := "id1" }).1
    ⟨recS1, by simp, rfl⟩, ?_⟩
  exact (save_file_record_spec [recS1] recS2).2 (by decide)

/-- C7 counterexample: the situation the spec calls a Conflict — an
insert whose id already exists — surfaces as a `Database` error whose
status code is 500, not 409; indeed `ServerError` has no Conflict
variant to map to 409 at all. -/
theorem status_code_no_conflict_counterexample :
    save_file_record [recA] { recB with id := "a" } =
      .error (.Database "UNIQUE constraint failed: files.id")
    ∧ (ServerError.Database "UNIQUE constraint failed: files.id").status_code
        = 500 := by
  exact ⟨rfl, rfl⟩

/-- C7 amended: the implemented mapping is `NotFound`→404,
`Validation`→400, `PermissionDenied`→403 and every other variant
(`Config`, `Database`, `Io`, `Serde`, `Http`, `Axum`, `FileOperation`,
`VideoProcessing`, `Internal`)→500; each error kind stays a distinct
typed variant, but no variant is mapped to 409 because the taxonomy has
no Conflict variant. -/
theorem status_code_spec (s : String) :
    (ServerError.NotFound s).status_code = 404
    ∧ (ServerError.Validation s).status_code = 400
    ∧ (ServerError.PermissionDenied s).status_code = 403
    ∧ (ServerError.Config s).status_code = 500
    ∧ (ServerError.Database s).status_code = 500
    ∧ (ServerError.Io s).status_code = 500
    ∧ (ServerError.Serde s).status_code = 500
    ∧ (ServerError.Http s).status_code = 500
    ∧ (ServerError.Axum s).status_code = 500
    ∧ (ServerError.FileOperation s).status_code = 500
    ∧ (ServerError.VideoProcessing s).status_code = 500
    ∧ (ServerError.Internal s).status_code = 500
    ∧ ∀ e : ServerError, e.status_code ≠ 409 := by
  refine ⟨rfl, rfl, rfl, rfl, rfl, rfl, rfl, rfl, rfl, rfl, rfl, rfl, ?_⟩
  intro e
  cases e <;> simp [ServerError.status_code]

/-- C8 counterexample: `Config::validate` accepts a configuration whose
chunk size and request timeout are both zero, contradicting the claim
that every consumed knob is checked to be non-zero. -/
theorem validate_accepts_zero_chunk_and_timeout :
    Config.validate (fun _ => true) (fun _ => true) cfgZeroChunkTimeout
      = .ok ()
    ∧ cfgZeroChunkTimeout.storage.chunk_size = 0
    ∧ cfgZeroChunkTimeout.server.request_timeout = 0 := by
  exact ⟨rfl, rfl, rfl⟩

/-- C8 amended: startup validation checks exactly that the server port
is non-zero, that the storage root exists or can be created, and that
the maximum file size is non-zero; the per-chunk size ceiling and the
request timeout are never read by `validate`, so changing them cannot
change its outcome. -/
theorem validate_spec (dirExists createDirOk : String → Bool)
    (c : Config) :
    (Config.validate dirExists createDirOk c = .ok () ↔
      (c.server.port ≠ 0
        ∧ (dirExists c.storage.path = true
            ∨ createDirOk c.storage.path = true)
        ∧ c.storage.max_file_size ≠ 0))
    ∧ ∀ n m : Nat,
      Config.validate dirExists createDirOk
        { c with server := { c.server with request_timeout := n }, storage := { c.storage with chunk_size := m } }
        = Config.validate dirExists createDirOk c := by
  constructor
  · constructor
    · intro h
      unfold Config.validate at h
      by_cases hp : c.server.port = 0
      · rw [if_pos hp] at h
        exact absurd h (by simp)
      · rw [if_neg hp] at h
        by_cases hd : (!(dirExists c.storage.path)
            && !(createDirOk c.storage.path)) = true
        · rw [if_pos hd] at h
          exact absurd h (by simp)
        · rw [if_neg hd] at h
          by_cases hm : c.storage.max_file_size = 0
          · rw [if_pos hm] at h
            exact absurd h (by simp)
          · refine ⟨hp, ?_, hm⟩
            simp only [Bool.and_eq_true, Bool.not_eq_true'] at hd
            rcases Bool.eq_false_or_eq_true (dirExists c.storage.path)
              with h1 | h1
            · exact Or.inl h1
            · rcases Bool.eq_false_or_eq_true (createDirOk c.storage.path)
                with h2 | h2
              · exact Or.inr h2
              · exact absurd ⟨h1, h2⟩ hd
    · rintro ⟨hp, hd, hm⟩
      unfold Config.validate
      have hcond : ¬((!(dirExists c.storage.path)
          && !(createDirOk c.storage.path)) = true) := by
        rcases hd with h1 | h1 <;> simp [h1]
      rw [if_neg hp, if_neg hcond, if_neg hm]
  · intro n m
    rfl

lemma mem_of_mem_fsRemove {fs : List String} {p x : String}
    (h : x ∈ fsRemove fs p) : x ∈ fs :=
  (List.mem_filter.mp h).1

lemma not_mem_fsRemove (fs : List String) (p : String) :
    p ∉ fsRemove fs p := by
  intro h
  have := (List.mem_filter.mp h).2
  simp at this

lemma mem_of_mem_deleteThumb {rf : String → Bool} {fs : List String}
    {t : Option String} {x : String} (h : x ∈ deleteThumb rf fs t) :
    x ∈ fs := by
  cases t with
  | none => exact h
  | some th =>
    simp only [deleteThumb] at h
    by_cases hc : (fs.contains th && !(rf th)) = true
    · rw [if_pos hc] at h
      exact mem_of_mem_fsRemove h
    · rw [if_neg hc] at h
      exact h

lemma deleteThumb_removes {rf : String → Bool} {fs : List String}
    {t : String} (hrf : rf t = false) : t ∉ deleteThumb rf fs (some t) := by
  intro hmem
  simp only [deleteThumb, hrf, Bool.not_false, Bool.and_true] at hmem
  by_cases hc : fs.contains t = true
  · rw [if_pos hc] at hmem
    exact not_mem_fsRemove fs t hmem
  · rw [if_neg hc] at hmem
    exact hc (by simpa using hmem)

lemma find?_filter_ne (db : List FileRecord) (file_id : String) :
    (db.filter (fun r => !(r.id == file_id))).find?
      (fun r => r.id == file_id) = none := by
  rw [List.find?_eq_none]
  intro x hx
  have := (List.mem_filter.mp hx).2
  simpa using this

/-- C3: `delete_file` returns `Ok(false)` when no row has the id; on an
existing record (whose on-disk removal succeeds) it returns `Ok(true)`
and afterwards the row is gone — `get_file_by_id` yields `Ok(None)` —
the file path no longer exists on disk, and the thumbnail is gone too
whenever its removal succeeded (its absence beforehand is no error). -/
theorem delete_file_spec (removeFails : String → Bool) (st : StoreState)
    (file_id : String) :
    (st.db.find? (fun r => r.id == file_id) = none →
      delete_file removeFails st file_id = .ok (st, false))
    ∧ (∀ record, st.db.find? (fun r => r.id == file_id) = some record →
      removeFails record.file_path = false →
      ∃ st', delete_file removeFails st file_id = .ok (st', true)
        ∧ get_file_by_id st'.db file_id = .ok none
        ∧ record.file_path ∉ st'.fs
        ∧ ∀ t, record.thumbnail_path = some t → removeFails t = false →
            t ∉ st'.fs) := by
  constructor
  · intro hnone
    unfold delete_file get_file_by_id
    rw [hnone]
  · intro record hfind hfail
    refine ⟨{ db := st.db.filter (fun r => !(r.id == file_id))
            , fs := deleteThumb removeFails
                (fsRemove st.fs record.file_path) record.thumbnail_path },
      ?_, ?_, ?_, ?_⟩
    · unfold delete_file get_file_by_id
      rw [hfind]
      simp [hfail]
    · unfold get_file_by_id
      rw [find?_filter_ne]
    · intro hmem
      exact not_mem_fsRemove st.fs record.file_path
        (mem_of_mem_deleteThumb hmem)
    · intro t ht hrf
      rw [ht]
      exact deleteThumb_removes hrf

/-- Witness for C3: deleting an unknown id reports `false`; deleting the
record of `stW` succeeds, and afterwards the row, the file and the
thumbnail are all gone. -/
theorem delete_file_spec_witness :
    delete_file (fun _ => false) stW "zzz" = .ok (stW, false)
    ∧ ∃ st', delete_file (fun _ => false) stW "w" = .ok (st', true)
      ∧ get_file_by_id st'.db "w" = .ok none
      ∧ recW.file_path ∉ st'.fs
      ∧ ∀ t, recW.thumbnail_path = some t → (fun _ : String => false) t = false →
          t ∉ st'.fs := by
  constructor
  · exact (delete_file_spec (fun _ => false) stW "zzz").1 (by rfl)
  · exact (delete_file_spec (fun _ => false) stW "w").2 recW (by rfl) rfl

/-- C10: when the record's file is already missing from disk,
`delete_file` skips the file removal without error, removes the
metadata row and returns `true`, for ANY pattern of `remove_file`
failures — in particular a failing thumbnail removal (not only its
absence) is swallowed and does not prevent row deletion. -/
theorem delete_file_missing_file_spec (removeFails : String → Bool)
    (st : StoreState) (file_id : String) (record : FileRecord)
    (hfind : st.db.find? (fun r => r.id == file_id) = some record)
    (habsent : record.file_path ∉ st.fs) :
    delete_file removeFails st file_id =
      .ok ({ db := st.db.filter (fun r => !(r.id == file_id))
           , fs := deleteThumb removeFails
               (fsRemove st.fs record.file_path) record.thumbnail_path },
           true)
    ∧ (st.db.filter (fun r => !(r.id == file_id))).find?
        (fun r => r.id == file_id) = none := by
  constructor
  · have hc : st.fs.contains record.file_path = false := by
      simpa using habsent
    unfold delete_file get_file_by_id
    rw [hfind]
    simp [hc, habsent]
  · exact find?_filter_ne st.db file_id

/-- Witness for C10: deleting `recM`, whose file is gone from disk,
under an oracle where EVERY `remove_file` call fails: the call still
returns `Ok(true)`, the row is gone, and the thumbnail (whose removal
failed) is still on disk, the failure having been ignored. -/
theorem delete_file_missing_file_spec_witness :
    delete_file (fun _ => true) stM "m" =
      .ok ({ db := List.filter (fun r => !(r.id == "m")) stM.db
           , fs := deleteThumb (fun _ => true)
               (fsRemove stM.fs recM.file_path) recM.thumbnail_path },
           true)
    ∧ (List.filter (fun r => !(r.id == "m")) stM.db).find?
        (fun r => r.id == "m") = none := by
  exact delete_file_missing_file_spec (fun _ => true) stM "m" recM
    (by rfl) (by decide)

/-- C1 counterexample: starting from the empty, consistent state,
`save_file_record` commits a row whose `file_path` points at no file —
the operation itself never inspects the filesystem — so a reachable
state violates the row-iff-file invariant. -/
theorem save_file_record_breaks_invariant :
    rowFileInv { db := [], fs := [] }
    ∧ save_file_record [] recO = .ok [recO]
    ∧ ¬ rowFileInv { db := [recO], fs := [] } := by
  refine ⟨?_, rfl, ?_⟩
  · intro r hr
    cases hr
  · intro h
    exact absurd (h recO (by simp)) (by simp)

/-- C1 amended: the store's operations do not enforce the invariant;
`save_file_record` preserves the row-to-file half only under the
caller-supplied precondition that a finalized file already exists at
the record's `file_path` (the finalization protocol of §4.4 is expected
to establish this before inserting). -/
theorem save_file_record_preserves_rowFileInv (st : StoreState)
    (record : FileRecord) (db' : List FileRecord)
    (hInv : rowFileInv st) (hfile : record.file_path ∈ st.fs)
    (hok : save_file_record st.db record = .ok db') :
    rowFileInv { db := db', fs := st.fs } := by
  have hdb : db' = st.db ++ [record] := by
    unfold save_file_record at hok
    split at hok
    · cases hok
    · exact (Except.ok.inj hok).symm
  subst hdb
  intro r hr
  rcases List.mem_append.mp hr with h | h
  · exact hInv r h
  · rw [List.mem_singleton] at h
    subst h
    exact hfile

/-- Witness for C1 (amended): inserting a record whose file does exist
keeps the invariant. -/
theorem save_file_record_preserves_rowFileInv_witness :
    rowFileInv { db := [recA], fs := ["/data/sa.txt"] } := by
  exact save_file_record_preserves_rowFileInv
    { db := [], fs := ["/data/sa.txt"] } recA [recA]
    (by intro r hr; cases hr) (by simp [recA]) rfl

lemma sqliteOffset_sublist (o : Int) (rows : List FileRecord) :
    (sqliteOffset o rows).Sublist rows := by
  unfold sqliteOffset
  split
  · exact List.Sublist.refl rows
  · exact List.drop_sublist o.toNat rows

lemma sqliteLimit_sublist (l : Int) (rows : List FileRecord) :
    (sqliteLimit l rows).Sublist rows := by
  unfold sqliteLimit
  split
  · exact List.Sublist.refl rows
  · exact List.take_sublist l.toNat rows

lemma sqlitePage_sublist (l o : Int) (rows : List FileRecord) :
    (sqlitePage l o rows).Sublist rows :=
  (sqliteLimit_sublist l (sqliteOffset o rows)).trans
    (sqliteOffset_sublist o rows)

/-- C5 counterexample: a non-positive limit IS accepted as a page size —
`list_files` performs no validation — with SQLite treating 0 as an empty
page and a negative limit as no bound, rather than rejecting them. -/
theorem list_files_accepts_nonpositive_limit :
    list_files [recA] (some (-1)) none = .ok [recA]
    ∧ list_files [recA] (some 0) none = .ok [] := by
  exact ⟨rfl, rfl⟩

/-- C5 amended: `list_files` always succeeds with rows ordered by
`upload_time` descending, a suffix selection of the sorted table;
`limit` defaults to 50 and `offset` to 0 when unspecified; the limit is
never validated — a negative limit is passed through to SQLite and
returns ALL rows (offset 0 shown), instead of being rejected. -/
theorem list_files_spec (db : List FileRecord)
    (limit offset : Option Int) :
    (∃ res, list_files db limit offset = .ok res
      ∧ List.Sorted uploadTimeDesc res
      ∧ res.Sublist (List.insertionSort uploadTimeDesc db))
    ∧ list_files db none none = list_files db (some 50) (some 0)
    ∧ (∀ l : Int, l < 0 →
        list_files db (some l) (some 0) =
          .ok (List.insertionSort uploadTimeDesc db)) := by
  refine ⟨⟨sqlitePage (limit.getD 50) (offset.getD 0)
      (List.insertionSort uploadTimeDesc db), rfl, ?_, ?_⟩, rfl, ?_⟩
  · exact List.Pairwise.sublist
      (sqlitePage_sublist (limit.getD 50) (offset.getD 0) _)
      (List.sorted_insertionSort uploadTimeDesc db)
  · exact sqlitePage_sublist (limit.getD 50) (offset.getD 0) _
  · intro l hl
    simp [list_files, sqlitePage, sqliteLimit, sqliteOffset, hl]

/-- Witness for C5 (amended): a concrete negative limit returns the
whole (sorted) table instead of being rejected. -/
theorem list_files_spec_witness :
    list_files [recA, recB] (some (-2)) (some 0) =
      .ok (List.insertionSort uploadTimeDesc [recA, recB]) := by
  exact (list_files_spec [recA, recB] (some (-2)) (some 0)).2.2 (-2)
    (by decide)

/-- C6: stored-name allocation keeps the original extension whenever one
is present (for "movie.mp4" every allocation is the UUID followed by
".mp4"), degrades to the bare UUID token when no recognizable extension
exists, and distinct UUID draws always give distinct stored names, so
any number of allocations for one original name are pairwise distinct. -/
theorem generate_stored_name_spec (u1 u2 name : String) (hne : u1 ≠ u2) :
    generate_stored_name u1 name ≠ generate_stored_name u2 name
    ∧ (∀ e : String, extOf name = some e → e ≠ "" →
        generate_stored_name u1 name = u1 ++ "." ++ e)
    ∧ ((extOf name).getD "" = "" → generate_stored_name u1 name = u1) := by
  refine ⟨?_, ?_, ?_⟩
  · unfold generate_stored_name
    by_cases he : ((extOf name).getD "").isEmpty = true
    · rw [if_pos he, if_pos he]
      exact hne
    · rw [if_neg he, if_neg he]
      intro hcontra
      apply hne
      have hd := congrArg String.data hcontra
      simp only [String.data_append] at hd
      exact String.ext
        (List.append_cancel_right (List.append_cancel_right hd))
  · intro e he hene
    unfold generate_stored_name
    rw [he]
    show (if e.isEmpty then u1 else u1 ++ "." ++ e) = u1 ++ "." ++ e
    rw [if_neg]
    intro hie
    exact hene ((String.isEmpty_iff e).mp hie)
  · intro hge
    unfold generate_stored_name
    rw [hge]
    rfl

/-- Witness for C6: two distinct UUIDs allocated for "movie.mp4" give
distinct names, each the UUID followed by ".mp4"; a name without an
extension gives the bare UUID. -/
theorem generate_stored_name_spec_witness :
    generate_stored_name "u-1" "movie.mp4"
        ≠ generate_stored_name "u-2" "movie.mp4"
    ∧ generate_stored_name "u-1" "movie.mp4" = "u-1" ++ "." ++ "mp4"
    ∧ generate_stored_name "u-1" "test" = "u-1" := by
  obtain ⟨h1, h2, -⟩ :=
    generate_stored_name_spec "u-1" "u-2" "movie.mp4" (by decide)
  refine ⟨h1, h2 "mp4" (by decide) (by decide), ?_⟩
  exact (generate_stored_name_spec "u-1" "u-2" "test" (by decide)).2.2
    (by decide)

end FileServer
